import Mathlib

/-!
Verification of the WMS SKU-mapping / ingestion / aggregation core
(`src/app.py`) against its natural-language specification.

The persistent SQLite tables are modelled as association lists
`List (String × α)` keyed by their TEXT primary key; `INSERT OR REPLACE`
becomes `upsert`, `INSERT OR IGNORE` becomes `insertIfAbsent`.  Since a SQL
table is an unordered set of rows keyed by the primary key, "same persisted
state" is expressed as equality of `lookupKV` at every key.  Python
functions that can raise are embedded with `Except` (an `Except.error` is a
raised exception, an `Except.ok v` a normal return of value `v`); the Python
value `None` is `Option.none`.  The single `conn.commit()` at the end of
each batch loop is modelled by accumulating the batch's writes in a pending
list and applying them to the table only when the loop finishes without
raising.
-/

namespace WMS

/-! ### Generic keyed-table operations (SQL tables with a TEXT primary key) -/

def lookupKV {α : Type} (k : String) : List (String × α) → Option α
  | [] => none
  | (k₁, v) :: t => if k₁ = k then some v else lookupKV k t

/-- INSERT OR REPLACE: replace the row with key `k` in place, or append. -/
def upsert {α : Type} : List (String × α) → String → α → List (String × α)
  | [], k, v => [(k, v)]
  | (k₁, v₁) :: t, k, v => if k₁ = k then (k, v) :: t else (k₁, v₁) :: upsert t k v

/-- INSERT OR IGNORE: keep the existing row with key `k` if there is one. -/
def insertIfAbsent {α : Type} (t : List (String × α)) (k : String) (v : α) :
    List (String × α) :=
  match lookupKV k t with
  | some _ => t
  | none => t ++ [(k, v)]

/-- Apply a sequence of (key, row) writes as successive upserts. -/
def applyUpserts {α : Type} (t : List (String × α)) (ws : List (String × α)) :
    List (String × α) :=
  ws.foldl (fun acc w => upsert acc w.1 w.2) t

/-- The last write to key `k` in a write sequence, if any. -/
def lastW {α : Type} : List (String × α) → String → Option α
  | [], _ => none
  | w :: ws, k =>
    match lastW ws k with
    | some v => some v
    | none => if w.1 = k then some w.2 else none

theorem lookupKV_upsert {α : Type} (t : List (String × α)) (k k₀ : String) (v : α) :
    lookupKV k₀ (upsert t k v) = if k = k₀ then some v else lookupKV k₀ t := by
  induction t with
  | nil => simp [upsert, lookupKV]
  | cons hd tl ih =>
    obtain ⟨k₁, v₁⟩ := hd
    by_cases h1 : k₁ = k
    · subst h1
      by_cases h2 : k₁ = k₀ <;> simp [upsert, lookupKV, h2]
    · by_cases h2 : k₁ = k₀
      · subst h2
        have hk : ¬ k = k₁ := fun h => h1 h.symm
        simp [upsert, lookupKV, h1, hk]
      · simp [upsert, lookupKV, h1, h2, ih]

theorem lookupKV_applyUpserts {α : Type} (ws : List (String × α)) :
    ∀ (t : List (String × α)) (k : String),
      lookupKV k (applyUpserts t ws) = (lastW ws k).or (lookupKV k t) := by
  induction ws with
  | nil => intro t k; simp [applyUpserts, lastW]
  | cons w ws ih =>
    intro t k
    have step : applyUpserts t (w :: ws) = applyUpserts (upsert t w.1 w.2) ws := rfl
    rw [step, ih]
    cases hlast : lastW ws k with
    | some v => simp [lastW, hlast]
    | none =>
      rw [lookupKV_upsert]
      by_cases h : w.1 = k <;> simp [lastW, hlast, h]

theorem lastW_append {α : Type} (xs ys : List (String × α)) (k : String) :
    lastW (xs ++ ys) k = (lastW ys k).or (lastW xs k) := by
  induction xs with
  | nil => cases h : lastW ys k <;> simp [lastW, h]
  | cons x xs ih =>
    show lastW (x :: (xs ++ ys)) k = _
    rw [lastW, ih]
    cases h : lastW ys k with
    | some v => rfl
    | none => cases h2 : lastW xs k <;> simp [lastW, h2]

/-! ### Validator (`SKUMapper.validate_sku_format`)

The source checks `bool(re.match(r'^[A-Za-z0-9\-]+$', sku))`.  The character
class is the ASCII letters, the digits and the hyphen.  Python's `$` (without
`re.MULTILINE`) matches at the end of the string *or just before a newline at
the end of the string*, so a SKU consisting of class characters followed by a
single trailing newline is accepted as well. -/

def isSkuChar (c : Char) : Bool :=
  c.isAlpha || c.isDigit || c == '-'

def validate_sku_format (sku : String) : Bool :=
  let cs := sku.data
  let core := if cs.getLast? = some (Char.ofNat 10) then cs.dropLast else cs
  !core.isEmpty && core.all isSkuChar

/-! ### Data model -/

/-- A row of the `msku_mappings` table (minus the key and the timestamp). -/
structure MapRec where
  msku : String
  marketplace : String
deriving DecidableEq

/-- A row of the `sales_data` table (minus the key `order_id`).  The `msku`
column holds the value returned by `map_sku`, which is Python `None` for an
invalid-format SKU, hence `Option String`.  `price` (a Python float in the
source) is modelled as a rational. -/
structure SalesRec where
  sku : String
  msku : Option String
  quantity : Int
  price : Rat
  date : String
  marketplace : String
  state : String
deriving DecidableEq

/-- A row of the `inventory` table (minus the key `sku`). -/
structure InvRec where
  msku : Option String
  product_name : String
  stock_quantity : Int
deriving DecidableEq

/-- The `msku_mappings` table. -/
abbrev MapDB := List (String × MapRec)

/-! ### Seed data and `SKUMapper.create_tables` -/

/-- The compiled-in seed dictionary `predefined_mappings`, in Python dict
insertion order (MSKU category, list of SKUs). -/
def predefined_mappings : List (String × List String) :=
  [ ("MUSIC_BOX",
      [ "MTYGAUZJFZAAZXYJ", "MTYGFYU2AXY4VUYQ", "MTYGYX7YB7DJ5HSF",
        "MTYGF8CKEZVGPZGX", "MTYGYZGGV5NGQRXG", "MBXGPK2WHAWYW4UF",
        "MTYGADJZHJYSDTXB", "MTYGACBNGZPTDBGZ", "MBXF894GJXNQ79DN",
        "MTYGYZJRGAKY3AEJ", "OTYGU29RCH3FZZP8", "OTYGU25AZFNXZRXX" ]),
    ("PLUSH_TOY",
      [ "STFH8CZHGFBB8RHP", "STFH6QTVHNR3JSYZ", "STFH76G8G2ZAGFVZ",
        "STFH6QQNDEQTBMCK", "STFH6QTDZDU3JMTG", "STFH63ZFB9NC9NZQ",
        "STFH74ECSV8DWJHF", "STFH6FDUWS2FRN4T", "STFH6GXUYCBZGQB5",
        "STFH8CZKNCEHTG2A", "STFH6GYMKWBPBFQ5", "STFH6MNQVEXTFE7S",
        "STFG4PZP2YENG4NN", "STFH6GYEKCGYZQ5M" ]),
    ("SUNGLASSES",
      [ "SGLG5E7ZZWHFNTFH", "SGLGQSDZH7TP4CTF", "SGLGQQ9QN2M6TFH7",
        "SGLGFYUGHZHXSZWD", "SGLGQSHAWZZEJPHW" ]),
    ("TOY_WEAPON",
      [ "TWPH6ZHTQ3STVASV", "STFH6QPFQHH9FHZH", "STFH6QQNDEQTBMCK",
        "OTYGUM6DFKP8WTNW", "OTYGUGHAGZNTZTCZ" ]),
    ("MUSIC_INSTRUMENT",
      [ "PNLGT3YH6CHBRXRS", "PNLGT3YMUSHSEPXA" ]),
    ("WATCH", [ "WATG5ATMAD7U2KGS" ]) ]

/-- `SKUMapper.create_tables`: populate the mapping table from the seed
dictionary with `INSERT OR IGNORE`, category by category in dict order. -/
def create_tables (db : MapDB) : MapDB :=
  predefined_mappings.foldl
    (fun acc p =>
      p.2.foldl (fun acc2 s => insertIfAbsent acc2 s ⟨p.1, "default"⟩) acc)
    db

/-- The mapping table right after `SKUMapper.__init__` on a fresh database. -/
def initial_db : MapDB := create_tables []

/-! ### `SKUMapper.map_sku` and `SKUMapper.save_mapping` -/

/-- `SKUMapper.map_sku`.  On an invalid-format SKU it logs a warning and
returns Python `None` (it does not raise); on a valid SKU it returns the
mapped MSKU, or the sentinel `"UNKNOWN"` when the SKU is absent from the
store.  An `Except.error` would be a raised exception; `map_sku` never
produces one. -/
def map_sku (db : MapDB) (sku : String) : Except String (Option String) :=
  if validate_sku_format sku = false then
    Except.ok none
  else
    Except.ok (some
      (match lookupKV sku db with
       | some r => r.msku
       | none => "UNKNOWN"))

/-- The Python value `map_sku` returns (it never raises). -/
def map_sku_value (db : MapDB) (sku : String) : Option String :=
  match map_sku db sku with
  | Except.ok v => v
  | Except.error _ => none

/-- `SKUMapper.save_mapping`: raises `ValueError` on an invalid-format SKU,
otherwise upserts the mapping row and commits. -/
def save_mapping (db : MapDB) (sku msku marketplace : String) :
    Except String MapDB :=
  if validate_sku_format sku = false then
    Except.error "Invalid SKU format"
  else
    Except.ok (upsert db sku ⟨msku, marketplace⟩)

/-! ### `SKUMapper.load_mappings`

A raw row of the mapping CSV.  A field is `none` when the row lookup raises
`KeyError` (required column missing from the source); `marketplace` is read
with `row.get('marketplace', 'default')`, so a missing marketplace column is
not an error. -/

structure RawMapRow where
  sku : Option String
  msku : Option String
  marketplace : Option String
deriving DecidableEq

/-- The per-row loop of `load_mappings`: each row's `SKU` and `MSKU` cells are
read (raising on a missing column) and an upsert of the row is queued on the
open transaction. -/
def load_mappings_go (pend : List (String × MapRec)) :
    List RawMapRow → Except Unit (List (String × MapRec))
  | [] => Except.ok pend
  | r :: rs =>
    match r.sku, r.msku with
    | some s, some m =>
        load_mappings_go (pend ++ [(s, ⟨m, r.marketplace.getD "default"⟩)]) rs
    | _, _ => Except.error ()

/-- `SKUMapper.load_mappings`: iterate over the parsed rows queueing upserts,
then `conn.commit()` once after the loop.  If any row raises, the exception
is logged and re-raised and the commit is never reached, so the persisted
table is returned unchanged.  No SKU validation happens anywhere in this
function. -/
def load_mappings (db : MapDB) (rows : List RawMapRow) :
    Except Unit Unit × MapDB :=
  match load_mappings_go [] rows with
  | Except.ok ws => (Except.ok (), applyUpserts db ws)
  | Except.error e => (Except.error e, db)

/-! ### `WMSApp.process_sales_data` and `WMSApp.load_sales_data` -/

/-- A raw row of the sales CSV; a `none` field models a `KeyError` (or a
failed numeric conversion) when the row is processed. -/
structure RawSalesRow where
  sku : Option String
  product : Option String
  quantity : Option Int
  price : Option Rat
  order_id : Option String
  date : Option String
  state : Option String
deriving DecidableEq

/-- The application state: the mapping store connection plus the two tables
owned by the ingestion pipeline, and `self.sales_data` (the most recently
loaded sales DataFrame, `None` before any load). -/
structure AppState where
  mdb : MapDB
  sales : List (String × SalesRec)
  inventory : List (String × InvRec)
  frame : Option (List RawSalesRow)
deriving DecidableEq

/-- One iteration of the `process_sales_data` loop: extract the row's cells
(raising on a missing column), resolve the SKU with `map_sku` — whose result,
Python `None` included, is stored verbatim — and queue the two upserts
(`sales_data` keyed by order id, `inventory` keyed by SKU with the fixed
placeholder stock 100). -/
def process_row (mdb : MapDB) (r : RawSalesRow) :
    Except Unit ((String × SalesRec) × (String × InvRec)) :=
  match r.sku with
  | none => Except.error ()
  | some sku =>
    match map_sku mdb sku with
    | Except.error _ => Except.error ()
    | Except.ok msku =>
      match r.product, r.quantity, r.price, r.order_id, r.date, r.state with
      | some product, some q, some p, some oid, some date, some st =>
          Except.ok ((oid, ⟨sku, msku, q, p, date, "default", st⟩),
                     (sku, ⟨msku, product, 100⟩))
      | _, _, _, _, _, _ => Except.error ()

/-- The per-row loop of `process_sales_data`, queueing the pending writes of
the open transaction. -/
def process_go (mdb : MapDB) (ps : List (String × SalesRec))
    (pw : List (String × InvRec)) :
    List RawSalesRow →
      Except Unit (List (String × SalesRec) × List (String × InvRec))
  | [] => Except.ok (ps, pw)
  | r :: rs =>
    match process_row mdb r with
    | Except.ok (ws, wi) => process_go mdb (ps ++ [ws]) (pw ++ [wi]) rs
    | Except.error e => Except.error e

/-- `WMSApp.process_sales_data`: iterates over `self.sales_data` (raising if
it is unset), and commits the queued writes only after the whole loop has
finished; if any row raises, the commit is never reached and the exception
propagates to the caller with the tables unchanged. -/
def process_sales_data (st : AppState) : Except Unit AppState :=
  match st.frame with
  | none => Except.error ()
  | some rows =>
    match process_go st.mdb [] [] rows with
    | Except.ok (ps, pw) =>
        Except.ok { st with
          sales := applyUpserts st.sales ps,
          inventory := applyUpserts st.inventory pw }
    | Except.error e => Except.error e

/-- `WMSApp.load_sales_data`: store the parsed frame in `self.sales_data`,
then run `process_sales_data`, catching any exception (the Boolean is whether
the success dialog was shown).  On failure the new frame remains stored but
the tables are untouched. -/
def load_sales_data (st : AppState) (f : List RawSalesRow) : Bool × AppState :=
  let st₁ := { st with frame := some f }
  match process_sales_data st₁ with
  | Except.ok st₂ => (true, st₂)
  | Except.error _ => (false, st₁)

/-! ### `WMSApp.generate_sales_report` -/

/-- What the report computes for one row of `self.sales_data`: the group key
`map_sku(row['SKU'])` and the two aggregated cells.  A missing column raises;
so would an exception escaping `map_sku`. -/
def report_row (mdb : MapDB) (r : RawSalesRow) :
    Except Unit (Option String × Int × Rat) :=
  match r.sku, r.quantity, r.price with
  | some s, some q, some p =>
    match map_sku mdb s with
    | Except.ok k => Except.ok (k, q, p)
    | Except.error _ => Except.error ()
  | _, _, _ => Except.error ()

def report_rows (mdb : MapDB) :
    List RawSalesRow → Except Unit (List (Option String × Int × Rat))
  | [] => Except.ok []
  | r :: rs =>
    match report_row mdb r with
    | Except.ok t =>
      match report_rows mdb rs with
      | Except.ok ts => Except.ok (t :: ts)
      | Except.error e => Except.error e
    | Except.error e => Except.error e

/-- Add one row's quantity and price to its group's running sums (appending a
new group when the key is fresh). -/
def addToGroup (acc : List (String × Int × Rat)) (k : String) (q : Int)
    (p : Rat) : List (String × Int × Rat) :=
  match acc with
  | [] => [(k, q, p)]
  | (k₁, q₁, p₁) :: t =>
    if k₁ = k then (k₁, q₁ + q, p₁ + p) :: t
    else (k₁, q₁, p₁) :: addToGroup t k q p

/-- Fold one row into the accumulated groups; a row whose group key is
Python `None` (an invalid-format SKU) is dropped, as pandas' `groupby` drops
null keys. -/
def groupStep (acc : List (String × Int × Rat))
    (t : Option String × Int × Rat) : List (String × Int × Rat) :=
  match t.1 with
  | none => acc
  | some k => addToGroup acc k t.2.1 t.2.2

/-- `groupby('MSKU').agg({'Quantity': 'sum', 'Invoice Amount': 'sum'})`. -/
def groupTriples (l : List (Option String × Int × Rat)) :
    List (String × Int × Rat) :=
  l.foldl groupStep []

/-- `WMSApp.generate_sales_report` (its data, ignoring the chart rendering):
warns and does nothing when no sales data has been loaded; otherwise applies
`map_sku` afresh to the `SKU` column of the *in-memory* `self.sales_data`
frame — not to the persisted `sales_data` table — and groups it by the
resolved MSKU, summing quantity and invoice amount. -/
def generate_sales_report (st : AppState) :
    Except Unit (List (String × Int × Rat)) :=
  match st.frame with
  | none => Except.error ()
  | some rows =>
    match report_rows st.mdb rows with
    | Except.ok ts => Except.ok (groupTriples ts)
    | Except.error e => Except.error e

/-- What the specification describes for `Summarize`: group the *persisted*
`sales_data` records by their stored MSKU, summing quantity and price per
group.  (Second definition, following the spec's words, for comparison with
`generate_sales_report` above.) -/
def summarize_spec (sales : List (String × SalesRec)) :
    List (String × Int × Rat) :=
  groupTriples (sales.map (fun kv => (kv.2.msku, kv.2.quantity, kv.2.price)))

/-! ### Claim C6 — validator semantics -/

/-- C6: the claim says `validate_sku_format` accepts exactly the non-empty
strings of ASCII letters, digits and hyphens, with "a trailing newline"
explicitly not accepted.  Counterexample: `"A\n"` contains a newline, which
is outside the class, yet the function returns `true`, because Python's `$`
also matches just before a trailing newline. -/
theorem c6_counterexample :
    validate_sku_format "A\n" = true ∧
      Char.ofNat 10 ∈ ("A\n" : String).data ∧
      isSkuChar (Char.ofNat 10) = false := by
  decide

/-- C6 (amended): `validate_sku_format s` is `true` iff `s` is a non-empty
string of ASCII letters, digits and hyphens, or such a string followed by
exactly one trailing newline. -/
theorem c6_amended (s : String) :
    validate_sku_format s = true ↔
      ((s.data ≠ [] ∧ ∀ c ∈ s.data, isSkuChar c = true) ∨
       (s.data.getLast? = some (Char.ofNat 10) ∧ s.data.dropLast ≠ [] ∧
        ∀ c ∈ s.data.dropLast, isSkuChar c = true)) := by
  have hn : isSkuChar (Char.ofNat 10) = false := by decide
  by_cases h : s.data.getLast? = some (Char.ofNat 10)
  · have hmem : Char.ofNat 10 ∈ s.data := List.mem_of_getLast?_eq_some h
    simp only [validate_sku_format]
    rw [if_pos h]
    simp only [Bool.and_eq_true, Bool.not_eq_true', List.isEmpty_eq_false,
      List.all_eq_true]
    constructor
    · intro hv
      exact Or.inr ⟨h, hv.1, hv.2⟩
    · rintro (hl | hr)
      · have hc := hl.2 _ hmem
        rw [hn] at hc
        simp at hc
      · exact ⟨hr.2.1, hr.2.2⟩
  · simp only [validate_sku_format]
    rw [if_neg h]
    simp only [Bool.and_eq_true, Bool.not_eq_true', List.isEmpty_eq_false,
      List.all_eq_true]
    constructor
    · intro hv
      exact Or.inl ⟨hv.1, hv.2⟩
    · rintro (hl | hr)
      · exact hl
      · exact absurd hr.1 h

/-! ### Claim C9 — duplicated SKU in the seed table -/

/-- C9: the seed dictionary lists the SKU `STFH6QQNDEQTBMCK` both under
`PLUSH_TOY` and under `TOY_WEAPON`; seeding is insert-if-absent in dict
order, `PLUSH_TOY` comes first, so after initialization the store resolves
the SKU to `PLUSH_TOY` and the `TOY_WEAPON` seed entry is discarded. -/
theorem c9_seed_duplicate :
    (predefined_mappings.any fun p =>
        p.1 == "PLUSH_TOY" && p.2.contains "STFH6QQNDEQTBMCK") = true ∧
    (predefined_mappings.any fun p =>
        p.1 == "TOY_WEAPON" && p.2.contains "STFH6QQNDEQTBMCK") = true ∧
    map_sku initial_db "STFH6QQNDEQTBMCK" = Except.ok (some "PLUSH_TOY") ∧
    lookupKV "STFH6QQNDEQTBMCK" initial_db = some ⟨"PLUSH_TOY", "default"⟩ :=
  ⟨by decide, by decide, rfl, rfl⟩

/-! ### Claim C1 — `map_sku` on an invalid-format SKU -/

/-- C1 (counterexample): the claim says `map_sku` on an invalid-format SKU
raises InvalidFormatError rather than returning any value; in fact on
`"BAD SKU!"` it returns normally, with the Python value `None`. -/
theorem c1_counterexample :
    validate_sku_format "BAD SKU!" = false ∧
      map_sku initial_db "BAD SKU!" = Except.ok none :=
  ⟨by decide, rfl⟩

/-- C1 (amended): for every string failing SKU validation, `map_sku` logs a
warning and returns Python `None` — it raises nothing, and never returns a
mapped MSKU or the `"UNKNOWN"` sentinel for such input. -/
theorem c1_amended (db : MapDB) (sku : String)
    (h : validate_sku_format sku = false) :
    map_sku db sku = Except.ok none := by
  simp [map_sku, h]

theorem c1_amended_witness :
    validate_sku_format "BAD-SKU!" = false ∧
      map_sku [] "BAD-SKU!" = Except.ok none :=
  ⟨by decide, c1_amended [] "BAD-SKU!" (by decide)⟩

/-! ### Claim C8 — save / resolve round trip -/

/-- C8: for every syntactically valid SKU and arbitrary MSKU, `save_mapping`
succeeds (returning the upserted store) and `map_sku` on the result returns
exactly that MSKU: last write wins through the store. -/
theorem c8_save_resolve_roundtrip (db : MapDB) (sku msku : String)
    (h : validate_sku_format sku = true) :
    save_mapping db sku msku "default" =
        Except.ok (upsert db sku ⟨msku, "default"⟩) ∧
      map_sku (upsert db sku ⟨msku, "default"⟩) sku = Except.ok (some msku) := by
  constructor
  · simp [save_mapping, h]
  · simp [map_sku, h, lookupKV_upsert]

theorem c8_witness :
    validate_sku_format "SKU-1" = true ∧
      (save_mapping [] "SKU-1" "MSKU-9" "default" =
          Except.ok (upsert [] "SKU-1" ⟨"MSKU-9", "default"⟩) ∧
        map_sku (upsert [] "SKU-1" ⟨"MSKU-9", "default"⟩) "SKU-1" =
          Except.ok (some "MSKU-9")) :=
  ⟨by decide, c8_save_resolve_roundtrip [] "SKU-1" "MSKU-9" (by decide)⟩

/-! ### Claim C10 — `save_mapping` validates only the SKU -/

/-- C10: `save_mapping` checks only the SKU; any MSKU and marketplace
strings — the empty string included — are stored verbatim without error. -/
theorem c10_save_no_msku_validation (db : MapDB) (sku msku marketplace : String)
    (h : validate_sku_format sku = true) :
    save_mapping db sku msku marketplace =
        Except.ok (upsert db sku ⟨msku, marketplace⟩) ∧
      lookupKV sku (upsert db sku ⟨msku, marketplace⟩) =
        some ⟨msku, marketplace⟩ := by
  constructor
  · simp [save_mapping, h]
  · rw [lookupKV_upsert]
    simp

theorem c10_witness :
    validate_sku_format "A-1" = true ∧
      (save_mapping [] "A-1" "" "" =
          Except.ok (upsert ([] : MapDB) "A-1" ⟨"", ""⟩) ∧
        lookupKV "A-1" (upsert ([] : MapDB) "A-1" ⟨"", ""⟩) =
          some ⟨"", ""⟩) :=
  ⟨by decide, c10_save_no_msku_validation [] "A-1" "" "" (by decide)⟩

/-- `map_sku` never raises: it always returns normally (with `None` for an
invalid-format SKU). -/
theorem map_sku_eq_ok (db : MapDB) (sku : String) :
    map_sku db sku = Except.ok (map_sku_value db sku) := by
  by_cases h : validate_sku_format sku = false <;>
    simp [map_sku, map_sku_value, h]

/-! ### Claim C2 — bulk mapping load -/

/-- C2 (counterexample): the claim says a bulk load skips a tuple whose SKU
fails validity and does not write it to the store; in fact `load_mappings`
performs no SKU validation at all — the malformed tuple is upserted and the
call succeeds, applying 1 row where the claim predicts 0 applied and 1
skipped. -/
theorem c2_counterexample :
    validate_sku_format "BAD SKU!" = false ∧
      load_mappings [] [⟨some "BAD SKU!", some "M1", none⟩] =
        (Except.ok (), [("BAD SKU!", ⟨"M1", "default"⟩)]) :=
  ⟨by decide, rfl⟩

/-- C2 (amended): for every bulk load whose source parses structurally,
`load_mappings` upserts *every* tuple — there is no per-row SKU validation,
no tuple is skipped, and no count of applied/skipped rows is reported.  The
resulting store satisfies last-write-wins over the whole batch. -/
theorem c2_amended (db : MapDB) (rows : List RawMapRow)
    (ws : List (String × MapRec))
    (h : load_mappings_go [] rows = Except.ok ws) :
    load_mappings db rows = (Except.ok (), applyUpserts db ws) ∧
      ∀ k, lookupKV k (applyUpserts db ws) =
        (lastW ws k).or (lookupKV k db) := by
  refine ⟨?_, fun k => lookupKV_applyUpserts ws db k⟩
  simp [load_mappings, h]

theorem c2_amended_witness :
    load_mappings_go []
        [⟨some "BAD SKU!", some "M1", none⟩,
         ⟨some "G-1", some "M2", none⟩,
         ⟨some "G-2", some "M3", some "mk"⟩] =
      Except.ok
        [("BAD SKU!", ⟨"M1", "default"⟩), ("G-1", ⟨"M2", "default"⟩),
         ("G-2", ⟨"M3", "mk"⟩)] ∧
    (load_mappings []
        [⟨some "BAD SKU!", some "M1", none⟩,
         ⟨some "G-1", some "M2", none⟩,
         ⟨some "G-2", some "M3", some "mk"⟩] =
      (Except.ok (), applyUpserts ([] : MapDB)
        [("BAD SKU!", ⟨"M1", "default"⟩), ("G-1", ⟨"M2", "default"⟩),
         ("G-2", ⟨"M3", "mk"⟩)]) ∧
      ∀ k, lookupKV k (applyUpserts ([] : MapDB)
          [("BAD SKU!", ⟨"M1", "default"⟩), ("G-1", ⟨"M2", "default"⟩),
           ("G-2", ⟨"M3", "mk"⟩)]) =
        (lastW
            [("BAD SKU!", ⟨"M1", "default"⟩), ("G-1", ⟨"M2", "default"⟩),
             ("G-2", (⟨"M3", "mk"⟩ : MapRec))] k).or
          (lookupKV k ([] : MapDB))) :=
  ⟨rfl, c2_amended [] _ _ rfl⟩

/-! ### Claim C7 — structural failure aborts the batch, state unchanged -/

/-- C7: a mapping or sales source whose first row is missing a required
column makes `load_mappings` / the sales ingestion fail with the underlying
exception propagated (modelled as `Except.error`), and since the single
commit after the loop is never reached, the prior persisted state —
`msku_mappings`, `sales_data` and `inventory` — is returned unchanged: no
partial batch is committed.  (Only `self.sales_data`, the in-memory frame,
has been replaced before the failure.) -/
theorem c7_structural_failure_atomic
    (db : MapDB) (r : RawMapRow) (rs : List RawMapRow)
    (st : AppState) (q : RawSalesRow) (qs : List RawSalesRow)
    (h1 : r.sku = none ∨ r.msku = none)
    (h2 : q.sku = none ∨ q.product = none ∨ q.quantity = none ∨
          q.price = none ∨ q.order_id = none ∨ q.date = none ∨
          q.state = none) :
    load_mappings db (r :: rs) = (Except.error (), db) ∧
      load_sales_data st (q :: qs) =
        (false, { st with frame := some (q :: qs) }) := by
  constructor
  · have hgo : load_mappings_go [] (r :: rs) = Except.error () := by
      rcases h1 with h | h
      · simp [load_mappings_go, h]
      · cases hs : r.sku <;> simp [load_mappings_go, hs, h]
    simp [load_mappings, hgo]
  · have hrow : process_row st.mdb q = Except.error () := by
      unfold process_row
      rcases h2 with h | h | h | h | h | h | h <;> rw [h] <;>
        (repeat' split) <;> simp_all [map_sku_eq_ok]
    simp [load_sales_data, process_sales_data, process_go, hrow]

theorem c7_witness :
    ((⟨none, some "M1", none⟩ : RawMapRow).sku = none ∨
      (⟨none, some "M1", none⟩ : RawMapRow).msku = none) ∧
    ((⟨some "S-1", none, some 1, some 2, some "O1", some "D", some "T"⟩ :
        RawSalesRow).sku = none ∨
      (⟨some "S-1", none, some 1, some 2, some "O1", some "D", some "T"⟩ :
        RawSalesRow).product = none ∨
      (⟨some "S-1", none, some 1, some 2, some "O1", some "D", some "T"⟩ :
        RawSalesRow).quantity = none ∨
      (⟨some "S-1", none, some 1, some 2, some "O1", some "D", some "T"⟩ :
        RawSalesRow).price = none ∨
      (⟨some "S-1", none, some 1, some 2, some "O1", some "D", some "T"⟩ :
        RawSalesRow).order_id = none ∨
      (⟨some "S-1", none, some 1, some 2, some "O1", some "D", some "T"⟩ :
        RawSalesRow).date = none ∨
      (⟨some "S-1", none, some 1, some 2, some "O1", some "D", some "T"⟩ :
        RawSalesRow).state = none) ∧
    (load_mappings [("K", ⟨"M", "default"⟩)]
        [⟨none, some "M1", none⟩, ⟨some "G-1", some "M2", none⟩] =
      (Except.error (), [("K", ⟨"M", "default"⟩)]) ∧
      load_sales_data ⟨[], [("O0", ⟨"S0", some "M", 1, 1, "D", "default", "T"⟩)], [], none⟩
          [⟨some "S-1", none, some 1, some 2, some "O1", some "D", some "T"⟩] =
        (false,
          { (⟨[], [("O0", ⟨"S0", some "M", 1, 1, "D", "default", "T"⟩)], [], none⟩ : AppState) with
            frame := some
              [⟨some "S-1", none, some 1, some 2, some "O1", some "D", some "T"⟩] })) :=
  ⟨Or.inl rfl, Or.inr (Or.inl rfl),
    c7_structural_failure_atomic
      [("K", ⟨"M", "default"⟩)] ⟨none, some "M1", none⟩
      [⟨some "G-1", some "M2", none⟩]
      ⟨[], [("O0", ⟨"S0", some "M", 1, 1, "D", "default", "T"⟩)], [], none⟩
      ⟨some "S-1", none, some 1, some 2, some "O1", some "D", some "T"⟩ []
      (Or.inl rfl) (Or.inr (Or.inl rfl))⟩

/-! ### Claim C3 — per-row behaviour of the ingestion loop -/

/-- Concrete ingestion scenario: a single row whose SKU is invalid. -/
def c3_state : AppState := ⟨[], [], [], none⟩

def c3_row : RawSalesRow :=
  ⟨some "BAD SKU!", some "P", some 1, some 10, some "O1", some "D", some "S"⟩

/-- The pending writes `process_row` queues for `c3_row`. -/
def c3_write : (String × SalesRec) × (String × InvRec) :=
  (("O1", ⟨"BAD SKU!", none, 1, 10, "D", "default", "S"⟩),
    ("BAD SKU!", ⟨none, "P", 100⟩))

/-- C3 (counterexample): the claim says a row whose SKU fails resolution is
skipped, with no SalesRecord and no InventoryItem written.  In fact, after
ingesting a single row with the invalid SKU `"BAD SKU!"`, both tables hold a
row for it, with a null MSKU. -/
theorem c3_counterexample :
    validate_sku_format "BAD SKU!" = false ∧
      lookupKV "O1" ((load_sales_data c3_state [c3_row]).2).sales =
        some ⟨"BAD SKU!", none, 1, 10, "D", "default", "S"⟩ ∧
      lookupKV "BAD SKU!" ((load_sales_data c3_state [c3_row]).2).inventory =
        some ⟨none, "P", 100⟩ :=
  ⟨by decide, rfl, rfl⟩

/-- C3 (amended): a row of an Ingest batch whose cells all parse is never
skipped for its SKU.  Its SalesRecord and InventoryItem are upserted: with a
null MSKU when the SKU fails validation (since `map_sku` returns `None`
instead of raising), and otherwise with the resolved value — possibly
`"UNKNOWN"` — stored verbatim. -/
theorem c3_amended (st : AppState) (r : RawSalesRow) (s : String)
    (w : (String × SalesRec) × (String × InvRec))
    (hs : r.sku = some s)
    (h : process_row st.mdb r = Except.ok w) :
    w.1.2.msku = map_sku_value st.mdb s ∧
    (validate_sku_format s = false → w.1.2.msku = none) ∧
    (validate_sku_format s = true → ∃ m, w.1.2.msku = some m) ∧
    load_sales_data st [r] =
      (true, { st with
               frame := some [r]
               sales := upsert st.sales w.1.1 w.1.2
               inventory := upsert st.inventory w.2.1 w.2.2 }) := by
  have hload : load_sales_data st [r] =
      (true, { st with
               frame := some [r]
               sales := upsert st.sales w.1.1 w.1.2
               inventory := upsert st.inventory w.2.1 w.2.2 }) := by
    simp [load_sales_data, process_sales_data, process_go, h, applyUpserts]
  unfold process_row at h
  rw [hs] at h
  simp only [map_sku_eq_ok] at h
  split at h
  · cases h
    refine ⟨rfl, ?_, ?_, hload⟩
    · intro hv
      simp [map_sku_value, map_sku, hv]
    · intro hv
      cases hres : lookupKV s st.mdb with
      | some rec =>
        exact ⟨rec.msku, by simp [map_sku_value, map_sku, hv, hres]⟩
      | none =>
        exact ⟨"UNKNOWN", by simp [map_sku_value, map_sku, hv, hres]⟩
  · cases h

theorem c3_amended_witness :
    c3_row.sku = some "BAD SKU!" ∧
    process_row c3_state.mdb c3_row = Except.ok c3_write ∧
    (c3_write.1.2.msku = map_sku_value c3_state.mdb "BAD SKU!" ∧
      (validate_sku_format "BAD SKU!" = false → c3_write.1.2.msku = none) ∧
      (validate_sku_format "BAD SKU!" = true →
        ∃ m, c3_write.1.2.msku = some m) ∧
      load_sales_data c3_state [c3_row] =
        (true, { c3_state with
                 frame := some [c3_row]
                 sales := upsert c3_state.sales c3_write.1.1 c3_write.1.2
                 inventory :=
                   upsert c3_state.inventory c3_write.2.1 c3_write.2.2 })) :=
  ⟨rfl, rfl, c3_amended c3_state c3_row "BAD SKU!" c3_write rfl rfl⟩

/-! ### Claim C4 — idempotent ingestion -/

/-- C4: running the ingestion twice on the identical sequence of rows leaves
exactly the persisted SalesRecord and InventoryItem state of running it once
(records are keyed by order id / SKU and overwritten, never duplicated), and
the report totals are unchanged by the second run. -/
theorem c4_ingest_idempotent (st : AppState) (f : List RawSalesRow) :
    (∀ k, lookupKV k ((load_sales_data (load_sales_data st f).2 f).2).sales =
        lookupKV k ((load_sales_data st f).2).sales) ∧
      (∀ k, lookupKV k
          ((load_sales_data (load_sales_data st f).2 f).2).inventory =
        lookupKV k ((load_sales_data st f).2).inventory) ∧
      generate_sales_report (load_sales_data (load_sales_data st f).2 f).2 =
        generate_sales_report (load_sales_data st f).2 := by
  cases hgo : process_go st.mdb [] [] f with
  | error e =>
    simp [load_sales_data, process_sales_data, hgo]
  | ok pr =>
    obtain ⟨ps, pw⟩ := pr
    simp only [load_sales_data, process_sales_data, hgo]
    refine ⟨fun k => ?_, fun k => ?_, ?_⟩
    · simp only [lookupKV_applyUpserts]
      cases lastW ps k <;> simp
    · simp only [lookupKV_applyUpserts]
      cases lastW pw k <;> simp
    · simp [generate_sales_report]

/-! ### Claim C5 — aggregation -/

/-- Sum of the quantities of the rows grouped under key `k`. -/
def sumQ (l : List (Option String × Int × Rat)) (k : String) : Int :=
  ((l.filter fun t => t.1 == some k).map fun t => t.2.1).sum

/-- Sum of the invoice amounts of the rows grouped under key `k`. -/
def sumP (l : List (Option String × Int × Rat)) (k : String) : Rat :=
  ((l.filter fun t => t.1 == some k).map fun t => t.2.2).sum

/-- Effect of one grouped row on the running sums of its group. -/
def bumpGroup (q : Int) (p : Rat) : Option (Int × Rat) → Option (Int × Rat)
  | some (a, b) => some (a + q, b + p)
  | none => some (q, p)

/-- Effect of a whole row list on the running sums of group `k`. -/
def accGroup (l : List (Option String × Int × Rat)) (k : String) :
    Option (Int × Rat) → Option (Int × Rat)
  | some (a, b) => some (a + sumQ l k, b + sumP l k)
  | none =>
    if l.any (fun t => t.1 == some k) then some (sumQ l k, sumP l k) else none

theorem lookupKV_addToGroup (acc : List (String × Int × Rat)) (k₀ k : String)
    (q : Int) (p : Rat) :
    lookupKV k₀ (addToGroup acc k q p) =
      if k = k₀ then bumpGroup q p (lookupKV k₀ acc) else lookupKV k₀ acc := by
  induction acc with
  | nil => by_cases h : k = k₀ <;> simp [addToGroup, lookupKV, bumpGroup, h]
  | cons hd tl ih =>
    obtain ⟨k₁, q₁, p₁⟩ := hd
    by_cases h1 : k₁ = k
    · subst h1
      by_cases h2 : k₁ = k₀ <;>
        simp [addToGroup, lookupKV, bumpGroup, h2]
    · by_cases h2 : k₁ = k₀
      · subst h2
        have hk : ¬ k = k₁ := fun hh => h1 hh.symm
        simp [addToGroup, lookupKV, h1, hk]
      · simp [addToGroup, lookupKV, h1, h2, ih]

theorem lookupKV_foldl_groupStep (l : List (Option String × Int × Rat)) :
    ∀ (acc : List (String × Int × Rat)) (k : String),
      lookupKV k (l.foldl groupStep acc) = accGroup l k (lookupKV k acc) := by
  induction l with
  | nil =>
    intro acc k
    cases h : lookupKV k acc with
    | some v =>
      obtain ⟨a, b⟩ := v
      simp [accGroup, sumQ, sumP, h]
    | none => simp [accGroup, h]
  | cons t l ih =>
    intro acc k
    rw [List.foldl_cons, ih]
    obtain ⟨t1, tq, tp⟩ := t
    cases t1 with
    | none =>
      cases hacc : lookupKV k acc with
      | some v =>
        obtain ⟨a, b⟩ := v
        simp [groupStep, accGroup, hacc, sumQ, sumP, List.filter_cons]
      | none =>
        simp [groupStep, accGroup, hacc, sumQ, sumP, List.filter_cons,
          List.any_cons]
        simp only [Bool.false_or]
    | some k₁ =>
      rw [show groupStep acc (some k₁, tq, tp) = addToGroup acc k₁ tq tp from
            rfl,
          lookupKV_addToGroup]
      by_cases hk : k₁ = k
      · have hbeq : (some k₁ == some k) = true := by simp [hk]
        rw [if_pos hk]
        cases hacc : lookupKV k acc with
        | some v =>
          obtain ⟨a, b⟩ := v
          simp [bumpGroup, accGroup, hacc, sumQ, sumP, List.filter_cons, hbeq,
            add_assoc]
        | none =>
          simp [bumpGroup, accGroup, hacc, sumQ, sumP, List.filter_cons,
            List.any_cons, hbeq]
      · have hbeq : (some k₁ == some k) = false := by simp [hk]
        have hbeq2 : (k₁ == k) = false := by simp [hk]
        rw [if_neg hk]
        cases hacc : lookupKV k acc with
        | some v =>
          obtain ⟨a, b⟩ := v
          simp [accGroup, hacc, sumQ, sumP, List.filter_cons, hbeq]
        | none =>
          simp [accGroup, hacc, sumQ, sumP, List.filter_cons, List.any_cons,
            hbeq]
          simp only [hbeq2, Bool.false_or]

/-- Mapping store, two ingested batches and the resulting state used to
refute C5: batch A (order `O1`, quantity 3) is persisted, then batch B
(order `O2`, quantity 5) is loaded, leaving `self.sales_data` holding only
batch B while the persisted table holds both orders. -/
def c5_mdb : MapDB := [("S1", ⟨"M", "default"⟩)]

def c5_rowA : RawSalesRow :=
  ⟨some "S1", some "P", some 3, some 10, some "O1", some "D1", some "ST"⟩

def c5_rowB : RawSalesRow :=
  ⟨some "S1", some "P", some 5, some 20, some "O2", some "D2", some "ST"⟩

def c5_state : AppState :=
  (load_sales_data (load_sales_data ⟨c5_mdb, [], [], none⟩ [c5_rowA]).2
    [c5_rowB]).2

/-- C5 (counterexample): the claim says the report groups all *persisted*
SalesRecords — here two records with the same MSKU `"M"` and quantities 3
and 5, so it predicts a single group with total quantity 8.  The code
instead groups only the most recently loaded frame and reports total 5. -/
theorem c5_counterexample :
    lookupKV "O1" c5_state.sales =
        some ⟨"S1", some "M", 3, 10, "D1", "default", "ST"⟩ ∧
      lookupKV "O2" c5_state.sales =
        some ⟨"S1", some "M", 5, 20, "D2", "default", "ST"⟩ ∧
      summarize_spec c5_state.sales = [("M", 8, 30)] ∧
      generate_sales_report c5_state = Except.ok [("M", 5, 20)] ∧
      (("M", (5 : Int), (20 : Rat)) ≠ ("M", (8 : Int), (30 : Rat))) := by
  refine ⟨rfl, rfl, ?_, rfl, by norm_num⟩
  have hs : c5_state.sales =
      [("O1", ⟨"S1", some "M", 3, 10, "D1", "default", "ST"⟩),
       ("O2", ⟨"S1", some "M", 5, 20, "D2", "default", "ST"⟩)] := rfl
  rw [hs]
  show groupTriples [(some "M", 3, 10), (some "M", 5, 20)] = [("M", 8, 30)]
  show [("M", (3 : Int) + 5, (10 : Rat) + 20)] = [("M", 8, 30)]
  norm_num

/-- C5 (amended): the report groups the rows of the most recently loaded
sales batch (`self.sales_data`), re-resolving each SKU through the mapping
store at report time, not the persisted SalesRecords.  Within that batch the
grouping key is the resolved MSKU compared by exact string equality — the
`"UNKNOWN"` sentinel is an ordinary group — and each group carries the sum
of the quantities and of the invoice amounts of its rows (rows resolving to
Python `None` are dropped). -/
theorem c5_amended (st : AppState) (rows : List RawSalesRow)
    (ts : List (Option String × Int × Rat))
    (hf : st.frame = some rows)
    (hr : report_rows st.mdb rows = Except.ok ts) :
    generate_sales_report st = Except.ok (groupTriples ts) ∧
      ∀ k : String, lookupKV k (groupTriples ts) =
        if ts.any (fun t => t.1 == some k) then some (sumQ ts k, sumP ts k)
        else none := by
  refine ⟨by simp [generate_sales_report, hf, hr], fun k => ?_⟩
  have hh := lookupKV_foldl_groupStep ts [] k
  simpa [groupTriples, accGroup, lookupKV] using hh

/-- Two-row batch resolving to `"UNKNOWN"` with quantities 3 and 5. -/
def c5w_rows : List RawSalesRow :=
  [⟨some "U-1", some "P", some 3, some 1, some "O1", some "D", some "S"⟩,
   ⟨some "U-1", some "P", some 5, some 2, some "O2", some "D", some "S"⟩]

def c5w_state : AppState := ⟨[], [], [], some c5w_rows⟩

def c5w_ts : List (Option String × Int × Rat) :=
  [(some "UNKNOWN", 3, 1), (some "UNKNOWN", 5, 2)]

theorem c5_amended_witness :
    c5w_state.frame = some c5w_rows ∧
    report_rows c5w_state.mdb c5w_rows = Except.ok c5w_ts ∧
    (generate_sales_report c5w_state = Except.ok (groupTriples c5w_ts) ∧
      ∀ k : String, lookupKV k (groupTriples c5w_ts) =
        if c5w_ts.any (fun t => t.1 == some k) then
          some (sumQ c5w_ts k, sumP c5w_ts k)
        else none) ∧
    lookupKV "UNKNOWN" (groupTriples c5w_ts) = some (8, 3) :=
  ⟨rfl, rfl, c5_amended c5w_state c5w_rows c5w_ts rfl rfl, by
    show some ((3 : Int) + 5, (1 : Rat) + 2) = some (8, 3)
    norm_num⟩

end WMS
